import Mathlib

/-
  Verification development for the qlab dynamic-query layer
  (src/qlab/helpers.py, model_validation.py, pydantic_filters.py,
  views.py, settings.py), shallowly embedded in Lean 4.

  Conventions used throughout:
  * Django model fields are represented by their concrete field class
    (`DjangoFieldClass`); Python `isinstance` checks are embedded by
    `is_instance`, which includes the real Django subclass edges
    (e.g. `OneToOneField` subclasses `ForeignKey`,
    `DateTimeField` subclasses `DateField`, `EmailField` subclasses
    `CharField`, `ImageField` subclasses `FileField`).
  * Machine strings are Lean `String`s; the few string algorithms the
    source uses (`str.replace("_", "__")`, `"__" in s`, `s.split("__", 1)`,
    `s.startswith(t)`) are embedded as structurally recursive functions on
    `List Char` so that every definition is kernel-computable.
  * Error messages are embedded as the source's f-strings with the ASCII
    quote characters around interpolated values elided (the quoting adds
    no information and only the message structure is claimed anywhere).
  * Python lists that are mutated by appending are threaded explicitly.
-/

/-! ## Django field classes and `isinstance` -/

/-- The concrete Django field classes that appear in the repository's
type-mapping tables (helpers.py `get_field_type_name`,
`get_allowed_operations`, `check_attribute_operation`). -/
inductive DjangoFieldClass where
  | CharField | TextField | EmailField | URLField | SlugField
  | FilePathField | GenericIPAddressField
  | IntegerField | BigIntegerField | SmallIntegerField | PositiveIntegerField
  | FloatField | DecimalField
  | BooleanField
  | DateField | DateTimeField | TimeField
  | ForeignKey | OneToOneField | ManyToManyField
  | UUIDField | JSONField | FileField | ImageField
deriving DecidableEq, Repr

open DjangoFieldClass in
/-- Python `isinstance(field, k)` for a field whose concrete class is `c`:
true when `c = k` or `c` is a (transitive) subclass of `k`.  The subclass
edges are Django's real ones: EmailField/SlugField/URLField < CharField,
BigIntegerField/SmallIntegerField/PositiveIntegerField < IntegerField,
DateTimeField < DateField, OneToOneField < ForeignKey,
ImageField < FileField. -/
def is_instance (c k : DjangoFieldClass) : Bool :=
  c = k ||
  match c, k with
  | EmailField, CharField => true
  | SlugField, CharField => true
  | URLField, CharField => true
  | BigIntegerField, IntegerField => true
  | SmallIntegerField, IntegerField => true
  | PositiveIntegerField, IntegerField => true
  | DateTimeField, DateField => true
  | OneToOneField, ForeignKey => true
  | ImageField, FileField => true
  | _, _ => false

open DjangoFieldClass in
/-- helpers.py `get_field_type_name`: the `type_mapping` dict in source
order; the first `isinstance` match wins, `"unknown"` otherwise. -/
def get_field_type_name (c : DjangoFieldClass) : String :=
  let type_mapping : List (DjangoFieldClass × String) :=
    [ (CharField, "string"), (TextField, "text"), (EmailField, "email"),
      (URLField, "url"), (SlugField, "slug"),
      (IntegerField, "integer"), (BigIntegerField, "bigint"),
      (SmallIntegerField, "smallint"), (PositiveIntegerField, "positiveint"),
      (FloatField, "float"), (DecimalField, "decimal"),
      (BooleanField, "boolean"),
      (DateField, "date"), (DateTimeField, "datetime"), (TimeField, "time"),
      (ForeignKey, "foreignkey"), (OneToOneField, "onetoone"),
      (ManyToManyField, "manytomany"),
      (UUIDField, "uuid"), (JSONField, "json"),
      (FileField, "file"), (ImageField, "image") ]
  match type_mapping.find? (fun p => is_instance c p.1) with
  | some p => p.2
  | none => "unknown"

open DjangoFieldClass in
/-- helpers.py `get_allowed_operations`: the `FIELD_OPS` dict in source
order; the first `isinstance` match returns its operation list, `[]`
otherwise. -/
def get_allowed_operations (c : DjangoFieldClass) : List String :=
  let FIELD_OPS : List (DjangoFieldClass × List String) :=
    [ (CharField, ["is", "is_not", "icontains"]),
      (TextField, ["is", "is_not", "icontains"]),
      (EmailField, ["is", "is_not", "icontains"]),
      (SlugField, ["is", "is_not", "icontains"]),
      (URLField, ["is", "is_not", "icontains"]),
      (FilePathField, ["is", "is_not", "icontains"]),
      (GenericIPAddressField, ["is", "is_not", "icontains"]),
      (IntegerField, ["is", "is_not", "lt", "lte", "gt", "gte"]),
      (FloatField, ["is", "is_not", "lt", "lte", "gt", "gte"]),
      (DecimalField, ["is", "is_not", "lt", "lte", "gt", "gte"]),
      (PositiveIntegerField, ["is", "is_not", "lt", "lte", "gt", "gte"]),
      (BigIntegerField, ["is", "is_not", "lt", "lte", "gt", "gte"]),
      (SmallIntegerField, ["is", "is_not", "lt", "lte", "gt", "gte"]),
      (BooleanField, ["is", "is_not"]),
      (DateField, ["is", "is_not", "lt", "lte", "gt", "gte"]),
      (DateTimeField, ["is", "is_not", "lt", "lte", "gt", "gte"]),
      (TimeField, ["is", "is_not", "lt", "lte", "gt", "gte"]),
      (ForeignKey, ["is", "is_not"]),
      (OneToOneField, ["is", "is_not"]),
      (ManyToManyField, ["is", "is_not", "icontains"]),
      (UUIDField, ["is", "is_not", "icontains"]),
      (JSONField, ["is", "is_not", "icontains"]),
      (FileField, ["is", "is_not"]),
      (ImageField, ["is", "is_not"]) ]
  match FIELD_OPS.find? (fun p => is_instance c p.1) with
  | some p => p.2
  | none => []

open DjangoFieldClass in
/-- The `FIELD_OPS` table inside helpers.py `check_attribute_operation`
(a distinct, larger table than the one in `get_allowed_operations`:
note the extra `iexact`, `startswith`, `endswith` entries).
The membership test of that function accepts `op` when ANY entry whose
field class matches by `isinstance` contains `op`. -/
def field_ops_check (c : DjangoFieldClass) (opn : String) : Bool :=
  let FIELD_OPS : List (DjangoFieldClass × List String) :=
    [ (CharField, ["is", "is_not", "icontains", "iexact", "startswith", "endswith"]),
      (TextField, ["is", "is_not", "icontains", "iexact", "startswith", "endswith"]),
      (EmailField, ["is", "is_not", "icontains", "iexact"]),
      (SlugField, ["is", "is_not", "icontains", "iexact"]),
      (URLField, ["is", "is_not", "icontains", "iexact"]),
      (FilePathField, ["is", "is_not", "icontains"]),
      (GenericIPAddressField, ["is", "is_not", "icontains", "iexact"]),
      (IntegerField, ["is", "is_not", "lt", "lte", "gt", "gte"]),
      (FloatField, ["is", "is_not", "lt", "lte", "gt", "gte"]),
      (DecimalField, ["is", "is_not", "lt", "lte", "gt", "gte"]),
      (PositiveIntegerField, ["is", "is_not", "lt", "lte", "gt", "gte"]),
      (BigIntegerField, ["is", "is_not", "lt", "lte", "gt", "gte"]),
      (SmallIntegerField, ["is", "is_not", "lt", "lte", "gt", "gte"]),
      (BooleanField, ["is", "is_not"]),
      (DateField, ["is", "is_not", "lt", "lte", "gt", "gte"]),
      (DateTimeField, ["is", "is_not", "lt", "lte", "gt", "gte"]),
      (TimeField, ["is", "is_not", "lt", "lte", "gt", "gte"]),
      (ForeignKey, ["is", "is_not"]),
      (OneToOneField, ["is", "is_not"]),
      (ManyToManyField, ["is", "is_not", "icontains"]),
      (UUIDField, ["is", "is_not", "icontains", "iexact"]),
      (JSONField, ["is", "is_not", "icontains"]),
      (FileField, ["is", "is_not"]),
      (ImageField, ["is", "is_not"]) ]
  FIELD_OPS.any (fun p => is_instance c p.1 && p.2.contains opn)

/-! ## Schema representation -/

/-- One declared model field: its name, concrete Django class, the related
model name for relation fields, and Django's `auto_created` flag (reverse
relations synthesized by the schema layer).  Metadata keys not referenced
by any claim (`label`, `required`, `max_length`, `choices`) are elided. -/
structure FieldDef where
  name : String
  cls : DjangoFieldClass
  related_model : Option String := none
  auto_created : Bool := false
deriving DecidableEq, Repr

/-- A schema: model name to declared field list (the role of Django's
per-model `_meta.get_fields()`). -/
def Schema := List (String × List FieldDef)

/-- `model._meta.get_fields()`: all fields of a model, `[]` when the model
is not in the schema. -/
def get_fields (s : Schema) (m : String) : List FieldDef :=
  match List.find? (fun p => p.1 == m) s with
  | some p => p.2
  | none => []

/-- `model._meta.get_field(name)`: `none` embeds the `FieldDoesNotExist`
exception. -/
def get_field (s : Schema) (m name : String) : Option FieldDef :=
  (get_fields s m).find? (fun f => f.name == name)

/-- One structured validation error record `(loc, msg, type)` as appended
by the source's validators. -/
structure VError where
  loc : List String
  msg : String
  type : String
deriving DecidableEq, Repr

/-- helpers.py `check_attribute_operation(model, field_name, op)`:
`model._meta.get_field(field_name)` (whose `FieldDoesNotExist` is NOT
caught by any caller and is embedded as `Except.error`), then the
membership scan over the larger `FIELD_OPS` table. -/
def check_attribute_operation (s : Schema) (m field_name opn : String) :
    Except String Bool :=
  match get_field s m field_name with
  | none => .error "FieldDoesNotExist"
  | some f => .ok (field_ops_check f.cls opn)

/-! ## String utilities used by `validate_field_path`

Python string operations are embedded as structurally recursive functions
on `List Char` so that every concrete evaluation goes through the kernel. -/

/-- Python `field_path.replace("_", "__")`: every underscore is doubled
(the pattern is a single character, so non-overlapping left-to-right
replacement is exactly character-wise expansion). -/
def replace_underscores : List Char → List Char
  | [] => []
  | c :: cs =>
    if c = '_' then '_' :: '_' :: replace_underscores cs
    else c :: replace_underscores cs

/-- Python `s.startswith(t)` on the character lists. -/
def starts_with (t s : List Char) : Bool := t.isPrefixOf s

/-- Split a character list on every non-overlapping, leftmost-first
occurrence of the relation separator `"__"` (Python `s.split("__")`).
`parts_of l` is never `[]`; it is `[l]` exactly when `l` has no `"__"`
occurrence, and Python's `s.split("__", 1)` corresponds to
`(head, intercalate "__" tail)` of the result. -/
def parts_of : List Char → List (List Char)
  | [] => [[]]
  | '_' :: '_' :: rest => [] :: parts_of rest
  | c :: rest =>
    match parts_of rest with
    | [] => [[c]]
    | p :: ps => (c :: p) :: ps

/-! ## `validate_field_path` (helpers.py) -/

/-- Recursive worker of helpers.py `validate_field_path`, operating on the
`"__"`-separated parts of the remaining path (see `parts_of`): a
one-element list is the source's `"__" not in field_path` branch, a longer
list is the related-field branch, with `parts.head` as `related_name` and
the rest as `remaining_path`.  Returns the extended error list and the
boolean result. -/
def validate_field_path_parts (s : Schema) (model : String) :
    List (List Char) → List VError → List VError × Bool
  | [], errors => (errors, false)  -- unreachable: `parts_of` is never []
  | [single], errors =>
    -- Simple field (no relations)
    let field_path := String.mk single
    let field_names := (get_fields s model).map (·.name)
    if field_path ∈ field_names then (errors, true)
    else
      -- Try to provide helpful suggestion
      let suggested := replace_underscores single
      if (get_fields s model).any
          (fun f => starts_with (f.name ++ "__").data suggested) then
        (errors ++ [{ loc := ["field"],
                      msg := "Field " ++ field_path ++ " does not exist. Did you mean "
                             ++ String.mk suggested ++ "?",
                      type := "value_error" }], false)
      else
        (errors ++ [{ loc := ["field"],
                      msg := "Field " ++ field_path ++ " does not exist in model "
                             ++ model,
                      type := "value_error" }], false)
  | first :: rest, errors =>
    -- Related field (has __ separator); `rest` is nonempty here
    let related_name := String.mk first
    match get_field s model related_name with
    | none =>
      (errors ++ [{ loc := ["field"],
                    msg := "Field " ++ related_name ++ " does not exist in model "
                           ++ model,
                    type := "value_error" }], false)
    | some related_field =>
      -- Ensure it's actually a relation field:
      -- isinstance(related_field, (ForeignKey, ManyToManyField))
      if is_instance related_field.cls .ForeignKey
          || is_instance related_field.cls .ManyToManyField then
        validate_field_path_parts s (related_field.related_model.getD "")
          rest errors
      else
        (errors ++ [{ loc := ["field"],
                      msg := "Field " ++ related_field.name
                             ++ " is not a relation field in model " ++ model,
                      type := "value_error" }], false)

/-- helpers.py `validate_field_path(model, field_path, errors)`. -/
def validate_field_path (s : Schema) (model field_path : String)
    (errors : List VError) : List VError × Bool :=
  validate_field_path_parts s model (parts_of field_path.data) errors

/-! ## Filter AST (model_validation.py) and Django `Q` objects

The source class `Filter` is embedded as `QFilter` and Django's `Q` as
`QObj` (the plain names `Filter` and `Q` are already taken by the
libraries in scope).  `Filter` has three `Optional[List[Union[QFilter, Condition]]]` slots.  To
keep recursion structural (and every function kernel-computable) the
`Option`/`List` layers are mirrored by the dedicated mutual inductives
`OptFilterItems`/`FilterItems` below; `OptFilterItems.none` is pydantic's
`None` default and `FilterItems` is an ordinary cons-list. -/

/-- A condition value after `Condition.validate_value`: the literal strings
`"true"/"True"` and `"false"/"False"` are coerced to booleans, everything
else stays a string. -/
inductive CondValue where
  | str (s : String)
  | bool (b : Bool)
deriving DecidableEq, Repr

/-- model_validation.py `Condition` (after field validators ran). -/
structure Condition where
  field : String
  op : String
  value : CondValue
deriving DecidableEq, Repr

mutual
/-- model_validation.py `Filter`: the three operation groups. -/
inductive QFilter where
  | mk (and_operation or_operation not_operation : OptFilterItems) : QFilter

/-- `Optional[List[Union[QFilter, Condition]]]`. -/
inductive OptFilterItems where
  | none : OptFilterItems
  | some (items : FilterItems) : OptFilterItems

/-- `List[Union[QFilter, Condition]]`. -/
inductive FilterItems where
  | nil : FilterItems
  | cons (head : FilterItem) (tail : FilterItems) : FilterItems

/-- `Union[QFilter, Condition]`. -/
inductive FilterItem where
  | filt (f : QFilter) : FilterItem
  | cond (c : Condition) : FilterItem
end

/-- Python truthiness of an `Optional[List[...]]` slot (`if filter_obj.x:`):
`None` and the empty list are falsy. -/
def OptFilterItems.truthy : OptFilterItems → Bool
  | .none => false
  | .some .nil => false
  | .some (.cons _ _) => true

/-- A Django `Q` object: `empty` is `Q()` (no children); `leaf k v` is
`Q(**dict)` with the single lookup pair `k: v`; `qnot` marks negation (`~`); `qand`/`qor` nodes are built
only through the combinators below, mirroring `Q._combine`. -/
inductive QObj where
  | empty : QObj
  | leaf (key : String) (value : CondValue) : QObj
  | qand (l r : QObj) : QObj
  | qor (l r : QObj) : QObj
  | qnot (q : QObj) : QObj
deriving DecidableEq, Repr

/-- Django `Q.__bool__`: a `Q` object is falsy iff its children list is empty.
Negation preserves the children, so `~q` is as falsy as `q`. -/
def QObj.falsy : QObj → Bool
  | .empty => true
  | .leaf _ _ => false
  | .qand _ _ => false
  | .qor _ _ => false
  | .qnot q => q.falsy

/-- Django `Q.__and__` via `Q._combine(other, AND)`: a falsy side is
dropped (`if not other: return self.copy(); if not self: return
other.copy()`), otherwise a conjunction node is built. -/
def qand (a b : QObj) : QObj :=
  if b.falsy then a else if a.falsy then b else QObj.qand a b

/-- Django `Q.__or__` via `Q._combine(other, OR)`. -/
def qor (a b : QObj) : QObj :=
  if b.falsy then a else if a.falsy then b else QObj.qor a b

/-- Django `Q.__invert__`. -/
def qnot (a : QObj) : QObj := QObj.qnot a

/-- helpers.py `condition_to_q`.  For an operation outside the seven
supported tags the Python function falls off the end and returns `None`
(which would crash the `QObj` combinators); that branch is unreachable after
validation and is embedded as `QObj.empty`. -/
def condition_to_q (c : Condition) : QObj :=
  if c.op = "is" then QObj.leaf c.field c.value
  else if c.op = "is_not" then qnot (QObj.leaf c.field c.value)
  else if c.op = "lt" then QObj.leaf (c.field ++ "__lt") c.value
  else if c.op = "lte" then QObj.leaf (c.field ++ "__lte") c.value
  else if c.op = "gt" then QObj.leaf (c.field ++ "__gt") c.value
  else if c.op = "gte" then QObj.leaf (c.field ++ "__gte") c.value
  else if c.op = "icontains" then QObj.leaf (c.field ++ "__icontains") c.value
  else QObj.empty

mutual
/-- helpers.py `build_q`: starting from `q = Q()`, AND in every member of
the AND group, OR the OR group's internal disjunction INTO `q`
(`q |= or_q` — note: not `&=`), then AND in the negation of every member
of the NOT group. -/
def build_q : QFilter → QObj
  | .mk a o n =>
    build_q_not_group (build_q_or_group (build_q_and_group QObj.empty a) o) n

/-- `if filter_obj.and_operation: for item in ...: q &= ...`
(a `None` or empty group is falsy and leaves `q` unchanged). -/
def build_q_and_group (q : QObj) : OptFilterItems → QObj
  | .none => q
  | .some .nil => q
  | .some (.cons i rest) => build_q_and_loop q (.cons i rest)

/-- `if filter_obj.or_operation: or_q = Q(); for item in ...: or_q |= ...;
q |= or_q` — the whole OR group is OR-ed into the running result. -/
def build_q_or_group (q : QObj) : OptFilterItems → QObj
  | .none => q
  | .some .nil => q
  | .some (.cons i rest) => qor q (build_q_or_loop QObj.empty (.cons i rest))

/-- `if filter_obj.not_operation: for item in ...: q &= ~...` -/
def build_q_not_group (q : QObj) : OptFilterItems → QObj
  | .none => q
  | .some .nil => q
  | .some (.cons i rest) => build_q_not_loop q (.cons i rest)

/-- `for item in and_operation: q &= ...` -/
def build_q_and_loop : QObj → FilterItems → QObj
  | q, .nil => q
  | q, .cons i rest => build_q_and_loop (qand q (build_q_item i)) rest

/-- `for item in or_operation: or_q |= ...` -/
def build_q_or_loop : QObj → FilterItems → QObj
  | q, .nil => q
  | q, .cons i rest => build_q_or_loop (qor q (build_q_item i)) rest

/-- `for item in not_operation: q &= ~...` -/
def build_q_not_loop : QObj → FilterItems → QObj
  | q, .nil => q
  | q, .cons i rest => build_q_not_loop (qand q (qnot (build_q_item i))) rest

/-- `build_q(item) if isinstance(item, Filter) else condition_to_q(item)` -/
def build_q_item : FilterItem → QObj
  | .filt f => build_q f
  | .cond c => condition_to_q c
end

/-- Evaluation of a compiled `Q` predicate on one row, the row being
abstracted by its valuation `env` of leaf lookups: `Q()` matches
everything (Django's empty filter). -/
def evalQ (env : String → CondValue → Bool) : QObj → Bool
  | .empty => true
  | .leaf k v => env k v
  | .qand a b => evalQ env a && evalQ env b
  | .qor a b => evalQ env a || evalQ env b
  | .qnot a => !evalQ env a

mutual
/-- helpers.py `flatten_filter_conditions`: group order AND, OR, NOT
(`for group in ["and_operation", "or_operation", "not_operation"]` with
`getattr(filter_obj, group) or []`), recursing into nested Filters. -/
def flatten_filter_conditions : QFilter → List Condition
  | .mk a o n =>
    flatten_opt_items a ++ flatten_opt_items o ++ flatten_opt_items n

/-- `getattr(filter_obj, group) or []` followed by the item loop. -/
def flatten_opt_items : OptFilterItems → List Condition
  | .none => []
  | .some l => flatten_items l

/-- The inner `for item in items` loop. -/
def flatten_items : FilterItems → List Condition
  | .nil => []
  | .cons i rest => flatten_item i ++ flatten_items rest

/-- One item: recurse for a Filter, base case for a Condition. -/
def flatten_item : FilterItem → List Condition
  | .filt f => flatten_filter_conditions f
  | .cond c => [c]
end

deriving instance DecidableEq for Except

/-! ## Settings (settings.py `QLAB_DEFAULTS`) -/

/-- `DEFAULT_APP_LABEL` default. -/
def DEFAULT_APP_LABEL : String := "core"

/-- `PAGE_SIZE` default. -/
def PAGE_SIZE : Nat := 100

/-- `MAX_RELATION_DEPTH` default. -/
def MAX_RELATION_DEPTH : Nat := 2

/-! ## Pagination (django.core.paginator as used by views.py `Query.post`)

views.py constructs `Paginator(results, page_size)` with Django's defaults
`orphans=0, allow_empty_first_page=True`, which are inlined below. -/

/-- Django `Paginator.num_pages`: with `allow_empty_first_page=True` the
`count == 0` early-return is skipped; `hits = max(1, count - orphans)` with
`orphans = 0`; the result is `ceil(hits / per_page)`. -/
def paginator_num_pages (count per_page : Nat) : Nat :=
  (max 1 count + per_page - 1) / per_page

/-- Django `Paginator.validate_number` (for an integer argument): below 1
is rejected; a number above `num_pages` is rejected unless it is page 1 of
an empty-first-page paginator.  `Except.error` embeds the `EmptyPage`
exception, which no caller in views.py catches. -/
def paginator_validate_number (count per_page : Nat) (number : Int) :
    Except String Nat :=
  if number < 1 then .error "That page number is less than 1"
  else if number > (paginator_num_pages count per_page : Nat) && !(number == 1) then
    .error "That page contains no results"
  else .ok number.toNat

/-- The response-shaping block of views.py `Query.post`:
`paginator.page(query.page)` (slice bounds `bottom/top` as in Django
`Paginator.page`) followed by the response dictionary with `count`,
`page`, `page_size`, `total_pages`, boundary-aware `next`/`previous`
(Django `Page.has_next/has_previous/next_page_number/previous_page_number`)
and the page's rows. -/
structure PageResponse (α : Type) where
  count : Nat
  page : Nat
  page_size : Nat
  total_pages : Nat
  next : Option Nat
  previous : Option Nat
  results : List α
deriving DecidableEq, Repr

/-- Pagination of the ordered result rows at the requested page. -/
def query_paginate {α : Type} (rows : List α) (page : Int) (per_page : Nat) :
    Except String (PageResponse α) := do
  let count := rows.length
  let num_pages := paginator_num_pages count per_page
  let number ← paginator_validate_number count per_page page
  let bottom := (number - 1) * per_page
  let top0 := bottom + per_page
  -- Django: `if top + self.orphans >= self.count: top = self.count`
  let top := if top0 ≥ count then count else top0
  pure { count := count
         page := number
         page_size := per_page
         total_pages := num_pages
         next := if number < num_pages then some (number + 1) else none
         previous := if number > 1 then some (number - 1) else none
         results := (rows.drop bottom).take (top - bottom) }

/-! ## App registry (django.apps as used by helpers.py / pydantic_filters.py) -/

/-- The installed apps: app label to the `__name__`s of its models. -/
def Registry := List (String × List String)

/-- Python `str.lower()` (ASCII, which covers the identifiers involved). -/
def str_lower (s : String) : String := String.mk (s.data.map Char.toLower)

/-- helpers.py `model_exists`: case-insensitive search for a model of that
name across ALL installed apps, returning the (first) match. -/
def model_exists (reg : Registry) (model_name : String) : Option String :=
  reg.findSome? (fun app =>
    app.2.find? (fun m => str_lower m == str_lower model_name))

/-- `django.apps.apps.get_model(app_label, model_name)`: the app config is
looked up by exact label, then its model registry by LOWERCASED model name
(Django keys `app_config.models` that way).  `none` embeds the
`LookupError` this raises, which views.py/pydantic_filters.py never
catch. -/
def apps_get_model (reg : Registry) (app_label model_name : String) :
    Option String :=
  match reg.find? (fun p => p.1 == app_label) with
  | none => none
  | some p => p.2.find? (fun m => str_lower m == str_lower model_name)

/-! ## Pydantic parsing of Condition/Filter (model_validation.py) -/

/-- A condition as it arrives in the request body, before pydantic field
validators run. -/
structure RawCondition where
  field : String
  op : String
  value : String
deriving DecidableEq, Repr

mutual
/-- A filter as it arrives in the request body. -/
inductive RawFilter where
  | mk (and_operation or_operation not_operation : RawOptItems) : RawFilter

/-- Raw `Optional[List[Union[Filter, Condition]]]`. -/
inductive RawOptItems where
  | none : RawOptItems
  | some (items : RawItems) : RawOptItems

/-- Raw `List[Union[Filter, Condition]]`. -/
inductive RawItems where
  | nil : RawItems
  | cons (head : RawItem) (tail : RawItems) : RawItems

/-- Raw `Union[Filter, Condition]`. -/
inductive RawItem where
  | filt (f : RawFilter) : RawItem
  | cond (c : RawCondition) : RawItem
end

/-- model_validation.py `Condition.validate_op`: the allowed operation
list; an unknown operation RAISES a single-record `ValidationError` on the
spot (pydantic propagates the custom exception immediately, so parsing
stops at the first bad operation). -/
def condition_validate_op (opn : String) : Except (List VError) String :=
  let allowed_ops := ["is", "is_not", "lt", "lte", "gt", "gte", "icontains"]
  if opn ∈ allowed_ops then .ok opn
  else .error [{ loc := ["operation_type"],
                 msg := "The chosen operation type is not valid. Valid types are: "
                        ++ String.intercalate ", " allowed_ops,
                 type := "value_error" }]

/-- model_validation.py `Condition.validate_value`: the boolean literal
strings are coerced, everything else is kept verbatim. -/
def condition_validate_value (v : String) : CondValue :=
  if v = "true" || v = "True" then .bool true
  else if v = "false" || v = "False" then .bool false
  else .str v

/-- Pydantic construction of one `Condition`: the `op` validator runs
first (field order), then the `value` validator. -/
def parse_condition (rc : RawCondition) : Except (List VError) Condition := do
  let opn ← condition_validate_op rc.op
  pure { field := rc.field, op := opn, value := condition_validate_value rc.value }

mutual
/-- Pydantic construction of a `Filter` from the raw request: each nested
`Condition` runs its field validators as it is built; the first raised
`ValidationError` aborts the whole construction. -/
def parse_filter : RawFilter → Except (List VError) QFilter
  | .mk a o n => do
    let a' ← parse_opt_items a
    let o' ← parse_opt_items o
    let n' ← parse_opt_items n
    pure (.mk a' o' n')

/-- Parse one optional group. -/
def parse_opt_items : RawOptItems → Except (List VError) OptFilterItems
  | .none => pure .none
  | .some l => do pure (.some (← parse_items l))

/-- Parse the members of one group, in order. -/
def parse_items : RawItems → Except (List VError) FilterItems
  | .nil => pure .nil
  | .cons i rest => do pure (.cons (← parse_item i) (← parse_items rest))

/-- Parse one member. -/
def parse_item : RawItem → Except (List VError) FilterItem
  | .filt f => do pure (.filt (← parse_filter f))
  | .cond c => do pure (.cond (← parse_condition c))
end

/-! ## QueryFilter validation pipeline (pydantic_filters.py) -/

/-- An error escaping `QueryFilter(...)` construction: either the
structured `ValidationError` (caught by views.py and turned into a 400
response) or an uncaught Python exception — `LookupError` from
`apps.get_model`, `FieldDoesNotExist` from `check_attribute_operation`. -/
inductive PipeErr where
  | validation (errs : List VError)
  | uncaught (msg : String)
deriving DecidableEq, Repr

/-- pydantic_filters.py `QueryFilter._validate_field`: lookup-syntax check
(source helper `is_valid_lookup_syntax` in helpers.py: regex
  `[A-Za-z_][A-Za-z0-9_]*` segments joined by `__`, which matches exactly
the nonempty strings whose first character is a letter or underscore and
whose remaining characters are alphanumerics or underscores, since the
first greedy atom may swallow the whole string), then
`validate_field_path`. -/
def is_valid_lookup (s : String) : Bool :=
  match s.data with
  | [] => false
  | c :: rest => (c.isAlpha || c = '_') && rest.all (fun d => d.isAlphanum || d = '_')

/-- `QueryFilter._validate_field(model, field, errors)`. -/
def queryfilter_validate_field (s : Schema) (M field : String)
    (errors : List VError) : List VError × Bool :=
  if !is_valid_lookup field then
    (errors ++ [{ loc := ["field"],
                  msg := "Field " ++ field
                         ++ " syntax is incorrect. Use __ for relations and _ for attributes.",
                  type := "syntax_error" }], false)
  else
    validate_field_path s M field errors

/-- The per-condition step of the filter pass in
`QueryFilter.validate_fields`: validate the field path, and only if it is
valid check the operation against the field type
(`check_attribute_operation`, whose `FieldDoesNotExist` escapes
uncaught). -/
def filter_pass_step (s : Schema) (M : String) (errors : List VError)
    (cond : Condition) : Except PipeErr (List VError) :=
  let (errors2, valid_field) := queryfilter_validate_field s M cond.field errors
  if valid_field then
    match check_attribute_operation s M cond.field cond.op with
    | .error e => .error (.uncaught e)
    | .ok true => .ok errors2
    | .ok false =>
      .ok (errors2 ++ [{ loc := ["filter_fields", cond.field],
                         msg := "Operation " ++ cond.op
                                ++ " is not allowed for field " ++ cond.field ++ ".",
                         type := "operation_not_allowed" }])
  else .ok errors2

/-- pydantic_filters.py `QueryFilter.validate_fields` (the
`model_validator(mode="after")`): resolve the model inside the requested
(or default) app via `apps.get_model` — an uncaught `LookupError` if
absent there — then run the select-field pass and the filter pass,
appending every failure to one `errors` list, and raise them all at once
if any were collected. -/
def validate_fields (reg : Registry) (s : Schema) (app_label : Option String)
    (model_name : String) (select_fields : List String)
    (filter_fields : Option QFilter) : Except PipeErr Unit := do
  match apps_get_model reg (app_label.getD DEFAULT_APP_LABEL) model_name with
  | Option.none => throw (.uncaught "LookupError")
  | Option.some M =>
    let errs1 := select_fields.foldl
      (fun errs f => (queryfilter_validate_field s M f errs).1) []
    let errsF ← match filter_fields with
      | Option.none => pure errs1
      | Option.some f =>
        (flatten_filter_conditions f).foldlM (filter_pass_step s M) errs1
    if errsF.isEmpty then pure () else throw (.validation errsF)

/-- The request body fields `Query.post` feeds into `QueryFilter`. -/
structure RawRequest where
  model : String
  select_fields : List String
  filter_fields : Option RawFilter
  page : Int
  app_label : Option String

/-- A validated `QueryFilter` instance. -/
structure ValidatedQuery where
  model : String
  select_fields : List String
  filter_fields : Option QFilter
  page : Int
  app_label : Option String

/-- Construction of `QueryFilter(...)`: pydantic runs the field validators
in field-declaration order — `validate_model`, the parsing of
`filter_fields` (running each `Condition`'s validators), `validate_page` —
and then the after-validator `validate_fields`.  Each raising validator
stops construction immediately with just its own error records. -/
def query_filter_build (reg : Registry) (s : Schema) (r : RawRequest) :
    Except PipeErr ValidatedQuery := do
  match model_exists reg r.model with
  | Option.none =>
    throw (.validation [{ loc := ["model"],
                          msg := "Model " ++ r.model ++ " does not exist.",
                          type := "value_error" }])
  | Option.some _ => pure ()
  let ff ← match r.filter_fields with
    | Option.none => pure Option.none
    | Option.some rf =>
      match parse_filter rf with
      | .error e => throw (PipeErr.validation e)
      | .ok f => pure (Option.some f)
  if r.page < 1 then
    throw (.validation [{ loc := ["page"], msg := "Page must be at least 1.",
                          type := "value_error" }])
  else pure ()
  validate_fields reg s r.app_label r.model r.select_fields ff
  pure { model := r.model, select_fields := r.select_fields,
         filter_fields := ff, page := r.page, app_label := r.app_label }

/-- The observable outcome of views.py `Query.post`: a 200 response, the
400 response built from a caught `ValidationError`, or an exception that
no handler catches. -/
inductive PostOutcome (α : Type) where
  | ok (resp : PageResponse α)
  | badRequest (errs : List VError)
  | unhandled (msg : String)
deriving DecidableEq, Repr

/-- views.py `Query.post`: build `QueryFilter` (catching only
`ValidationError`; the `KeyError` branch for missing body keys is not
modelled — `RawRequest` always carries all keys), re-resolve the model,
compile the filter (`build_q` if present, else `Q()`), filter the model's
rows (`db` provides each model's rows already ordered by `id`; the
`.values(select_fields)` projection is elided as no claim touches it),
then paginate at `PAGE_SIZE`. -/
def views_query_post {α : Type} (reg : Registry) (s : Schema)
    (db : String → List α) (env : α → String → CondValue → Bool)
    (r : RawRequest) : PostOutcome α :=
  match query_filter_build reg s r with
  | .error (.validation e) => .badRequest e
  | .error (.uncaught m) => .unhandled m
  | .ok q =>
    match apps_get_model reg (q.app_label.getD DEFAULT_APP_LABEL) q.model with
    | Option.none => .unhandled "LookupError"
    | Option.some M =>
      let q_obj := match q.filter_fields with
        | Option.some f => build_q f
        | Option.none => QObj.empty
      let results := (db M).filter (fun row => evalQ (env row) q_obj)
      match query_paginate results q.page PAGE_SIZE with
      | .error m => .unhandled m
      | .ok resp => .ok resp

/-! ## Model metadata extraction (helpers.py `extract_field_metadata`)

The `(app_label, model_name)` pair Django uses as the visited-set key is
represented by the schema's model name (unique per model here).  The
metadata keys no claim touches (`label`, `required`, `max_length`,
`choices`) are elided from `FieldMeta`. -/

/-- The `isinstance(field, (ForeignKey, OneToOneField, ManyToManyField))`
test used twice inside the field loop. -/
def is_relation_field (fd : FieldDef) : Bool :=
  is_instance fd.cls .ForeignKey || is_instance fd.cls .OneToOneField
    || is_instance fd.cls .ManyToManyField

/-- One entry of the `fields_metadata` output list. -/
structure FieldMeta where
  name : String
  type : String
  allowed_operations : List String
  related_model : Option String := none
deriving DecidableEq, Repr

/-- `full_field_path = f"{prefix}__{field_name}" if prefix else field_name` -/
def extend_path (pre name : String) : String :=
  if pre = "" then name else pre ++ "__" ++ name

mutual
/-- helpers.py `extract_field_metadata`: return early on a model already
on the current branch (cycle prevention), otherwise add the model to the
visited set and walk its fields.  (In source the visited set is mutated in
place and each recursive call receives `visited_models.copy()`; nothing
else mutates the parent's copy between sibling calls, so passing
`m :: visited_models` to every child is the same thing.) -/
def extract_field_metadata (s : Schema) (m pre : String)
    (max_depth current_depth : Nat) (visited_models : List String) :
    List FieldMeta × List String :=
  if m ∈ visited_models then ([], [])
  else
    extract_fields_loop s (get_fields s m) pre max_depth current_depth
      (m :: visited_models)
termination_by (max_depth - current_depth, 1, 0)

/-- The `for field in model._meta.get_fields()` loop: skip auto-created
reverse relations; emit the field's metadata and lookup path; for a
relation field within the depth budget, recurse into the related model
with the extended prefix and extend both output lists. -/
def extract_fields_loop (s : Schema) (fields : List FieldDef) (pre : String)
    (max_depth current_depth : Nat) (visited : List String) :
    List FieldMeta × List String :=
  match fields with
  | [] => ([], [])
  | field :: rest =>
    if field.auto_created then
      extract_fields_loop s rest pre max_depth current_depth visited
    else
      let full_field_path := extend_path pre field.name
      let field_info : FieldMeta :=
        { name := full_field_path
          type := get_field_type_name field.cls
          allowed_operations := get_allowed_operations field.cls
          related_model := if is_relation_field field then field.related_model
                           else none }
      let child :=
        if is_relation_field field then
          if _h : current_depth < max_depth then
            extract_field_metadata s (field.related_model.getD "")
              full_field_path max_depth (current_depth + 1) visited
          else ([], [])
        else ([], [])
      let rest_out :=
        extract_fields_loop s rest pre max_depth current_depth visited
      (field_info :: (child.1 ++ rest_out.1),
       full_field_path :: (child.2 ++ rest_out.2))
termination_by (max_depth - current_depth, 0, fields.length)
decreasing_by
  all_goals simp_wf
  all_goals first
    | (apply Prod.Lex.left
       omega)
    | (apply Prod.Lex.right
       first
        | (apply Prod.Lex.left
           omega)
        | (apply Prod.Lex.right
           omega))
end

/-! ## Declarative characterization of the emitted lookup paths

`chain_ok s m max_depth current_depth visited segs` says: `segs` is a
nonempty segment sequence that resolves from model `m` — every segment
names a non-auto-created declared field, every segment but the last names
a relation field (foreign key / one-to-one / many-to-many), each relation
hop consumes depth budget (`current_depth < max_depth`), and no model on
the walk (including `m` itself) is in `visited` or repeats along the walk.
This is the specification side of claim C7. -/
def chain_ok (s : Schema) (m : String) (max_depth current_depth : Nat)
    (visited : List String) : List String → Bool
  | [] => false
  | [f] =>
    !(visited.contains m)
      && (get_fields s m).any (fun fd => !fd.auto_created && fd.name == f)
  | f :: f2 :: rest =>
    !(visited.contains m) && decide (current_depth < max_depth)
      && (get_fields s m).any (fun fd =>
            !fd.auto_created && fd.name == f && is_relation_field fd
              && chain_ok s (fd.related_model.getD "") max_depth
                   (current_depth + 1) (m :: visited) (f2 :: rest))

/-- Joining segments onto a path prefix the way `extract_field_metadata`
does, one `extend_path` step per segment. -/
def join_path (pre : String) (segs : List String) : String :=
  segs.foldl extend_path pre

/-! ## The two passes of `validate_fields`, named

`validate_fields` threads one `errors` list first through the select-field
loop and then through the filter-condition loop.  These two definitions
run each pass from an empty accumulator; the theorems below show the
threaded run is their concatenation. -/

/-- The select-field pass of `QueryFilter.validate_fields`, started from
an empty error list. -/
def select_pass_errors (s : Schema) (M : String) (select_fields : List String) :
    List VError :=
  select_fields.foldl (fun errs f => (queryfilter_validate_field s M f errs).1) []

/-- The filter pass of `QueryFilter.validate_fields`, started from an
empty error list (`Except.error` is an uncaught `FieldDoesNotExist` from
`check_attribute_operation`). -/
def filter_pass_run (s : Schema) (M : String) (f : QFilter) :
    Except PipeErr (List VError) :=
  (flatten_filter_conditions f).foldlM (filter_pass_step s M) []

/-! ## Concrete instances used by the claim theorems -/

/-- A model with a single `CharField`, for the operation-policy claims. -/
def s_chardoc : Schema :=
  [ ("Doc", [ { name := "name", cls := .CharField } ]) ]

/-- The field `Doc.name` of `s_chardoc`. -/
def chardoc_name_fd : FieldDef := { name := "name", cls := .CharField }

/-- `A.profile` is a one-to-one field to `B`; `B.name` exists. -/
def s_one_to_one : Schema :=
  [ ("A", [ { name := "profile", cls := .OneToOneField,
              related_model := some "B" } ]),
    ("B", [ { name := "name", cls := .CharField } ]) ]

/-- The field `A.profile` of `s_one_to_one`. -/
def profile_fd : FieldDef :=
  { name := "profile", cls := .OneToOneField, related_model := some "B" }

/-- `VeeamBackup.backup_job` is a foreign key to `BackupJob`, which has a
`name` field — so the lookup `backup_job__name` exists. -/
def s_veeam : Schema :=
  [ ("VeeamBackup",
      [ { name := "id", cls := .IntegerField },
        { name := "backup_job", cls := .ForeignKey,
          related_model := some "BackupJob" } ]),
    ("BackupJob",
      [ { name := "id", cls := .IntegerField },
        { name := "name", cls := .CharField } ]) ]

/-- `Condition(field="type", op="is", value="backup")` — an AND-group member. -/
def c_type : Condition := { field := "type", op := "is", value := .str "backup" }

/-- `Condition(field="size", op="gt", value="1000")` — an OR-group member. -/
def c_size : Condition := { field := "size", op := "gt", value := .str "1000" }

/-- `Filter(and_operation=[c_type], or_operation=[c_size])`. -/
def f_and_or : QFilter :=
  .mk (.some (.cons (.cond c_type) .nil))
      (.some (.cons (.cond c_size) .nil))
      .none

/-- A row on which the AND condition is false and the OR condition is
true: only the lookup `size__gt` holds. -/
def env_or_only : String → CondValue → Bool := fun k _ => k == "size__gt"

/-- `Filter()` — no group populated. -/
def empty_filter : QFilter := .mk .none .none .none

/-- 250 result rows, for the pagination boundary scenario. -/
def rows250 : List Nat := List.range 250

/-- A self-referential foreign key: `A.parent` points back to `A`.  The
path `parent__id` resolves (depth 1) but the metadata walk prunes it. -/
def s_self_fk : Schema :=
  [ ("A", [ { name := "id", cls := .IntegerField },
            { name := "parent", cls := .ForeignKey,
              related_model := some "A" } ]) ]

/-- A diamond with a cycle: `R.a` and `R.b` are sibling foreign keys to
`M`, and `M.back` points back to `R`. -/
def s_diamond : Schema :=
  [ ("R", [ { name := "a", cls := .ForeignKey, related_model := some "M" },
            { name := "b", cls := .ForeignKey, related_model := some "M" } ]),
    ("M", [ { name := "x", cls := .CharField },
            { name := "back", cls := .ForeignKey, related_model := some "R" } ]) ]

/-- One app `core` holding one model `Backup`. -/
def reg_core : Registry := [ ("core", ["Backup"]) ]

/-- The `Backup` model: an integer `id` and a string `name`. -/
def s_backup : Schema :=
  [ ("Backup", [ { name := "id", cls := .IntegerField },
                 { name := "name", cls := .CharField } ]) ]

/-- A request with TWO defects: `select_fields` names a nonexistent field
and the filter condition uses an unknown operation tag. -/
def req_two_defects : RawRequest :=
  { model := "Backup",
    select_fields := ["missing_field"],
    filter_fields := some (.mk
      (.some (.cons (.cond { field := "name", op := "bogus", value := "x" }) .nil))
      .none .none),
    page := 1,
    app_label := none }

/-- Two apps: `core` holds `Backup`, `other` holds `Secret`. -/
def reg_two : Registry := [ ("core", ["Backup"]), ("other", ["Secret"]) ]

/-- Field lists for both apps' models. -/
def s_two : Schema :=
  [ ("Backup", [ { name := "id", cls := .IntegerField } ]),
    ("Secret", [ { name := "id", cls := .IntegerField } ]) ]

/-- A request for `Secret` without an `app_label`, so resolution happens
in the default app `core` — where the model does not live. -/
def req_secret : RawRequest :=
  { model := "Secret", select_fields := ["id"], filter_fields := none,
    page := 1, app_label := none }

/-- An arbitrary database and row valuation for exercising `Query.post`. -/
def db_empty : String → List Nat := fun _ => []

/-- Row valuation: every lookup matches. -/
def env_all : Nat → String → CondValue → Bool := fun _ _ _ => true

/-- A filter whose single condition is well-formed (`icontains` on the
`CharField` `Backup.name`), used to witness the aggregation theorem. -/
def f_c6w : QFilter :=
  .mk (.some (.cons (.cond { field := "name", op := "icontains", value := .str "x" })
              .nil))
      .none .none

/-- The single error record `Condition.validate_op` raises. -/
def op_type_error : VError :=
  { loc := ["operation_type"],
    msg := "The chosen operation type is not valid. Valid types are: is, is_not, lt, lte, gt, gte, icontains",
    type := "value_error" }

/-- The plain (suggestion-free) `FieldNotFound` record produced for
`backup_job_name` on `VeeamBackup`. -/
def c3_plain_error : VError :=
  { loc := ["field"],
    msg := "Field backup_job_name does not exist in model VeeamBackup",
    type := "value_error" }

/-! # Theorems

Helper lemmas first, then one theorem per claim (with witnesses where the
theorem carries hypotheses). -/

/-- A chain that `chain_ok` accepts never starts at a model already in the
visited set. -/
lemma chain_ok_not_visited {s : Schema} {m : String} {maxD curD : Nat}
    {visited : List String} {segs : List String}
    (h : chain_ok s m maxD curD visited segs = true) :
    visited.contains m = false := by
  match segs with
  | [] => simp [chain_ok] at h
  | [f] =>
    rw [chain_ok] at h
    simp only [Bool.and_eq_true, Bool.not_eq_true'] at h
    exact h.1
  | f :: f2 :: rest =>
    rw [chain_ok] at h
    simp only [Bool.and_eq_true, Bool.not_eq_true'] at h
    exact h.1.1

/-- Joining one more segment onto a prefix. -/
lemma join_path_cons (pre f : String) (segs : List String) :
    join_path pre (f :: segs) = join_path (extend_path pre f) segs := rfl

/-- Membership in the lookup output of the field loop, characterized per
field: each non-auto-created field contributes its own path and, when it
is a relation field within the depth budget, every lookup of the
recursive walk into its related model. -/
lemma extract_loop_mem_iff (s : Schema) (maxD curD : Nat)
    (visited' : List String)
    (IH : curD < maxD → ∀ (m' pre' : String) (x' : String),
      x' ∈ (extract_field_metadata s m' pre' maxD (curD + 1) visited').2 ↔
      ∃ segs, chain_ok s m' maxD (curD + 1) visited' segs = true ∧
        x' = join_path pre' segs) :
    ∀ (fields : List FieldDef) (pre x : String),
      x ∈ (extract_fields_loop s fields pre maxD curD visited').2 ↔
      ∃ fd, fd ∈ fields ∧ fd.auto_created = false ∧
        (x = extend_path pre fd.name ∨
         (is_relation_field fd = true ∧ curD < maxD ∧
          ∃ segs, chain_ok s (fd.related_model.getD "") maxD (curD + 1)
              visited' segs = true ∧
            x = join_path (extend_path pre fd.name) segs)) := by
  intro fields
  induction fields with
  | nil =>
    intro pre x
    rw [extract_fields_loop]
    simp
  | cons field rest ih =>
    intro pre x
    by_cases hauto : field.auto_created = true
    · rw [extract_fields_loop, if_pos hauto]
      rw [ih pre x]
      constructor
      · rintro ⟨fd, hfd, h⟩
        exact ⟨fd, List.mem_cons_of_mem _ hfd, h⟩
      · rintro ⟨fd, hfd, hne, h⟩
        rcases List.mem_cons.mp hfd with rfl | hfd'
        · rw [hauto] at hne; cases hne
        · exact ⟨fd, hfd', hne, h⟩
    · have hauto' : field.auto_created = false := by
        revert hauto; cases field.auto_created <;> simp
      rw [extract_fields_loop, if_neg hauto]
      constructor
      · intro hx
        simp only [List.mem_cons, List.mem_append] at hx
        rcases hx with rfl | hx | hx
        · exact ⟨field, List.mem_cons_self _ _, hauto', Or.inl rfl⟩
        · by_cases hrel : is_relation_field field = true
          · by_cases hd : curD < maxD
            · rw [if_pos hrel, dif_pos hd] at hx
              rcases (IH hd _ _ x).mp hx with ⟨segs, hc, hxx⟩
              exact ⟨field, List.mem_cons_self _ _, hauto',
                Or.inr ⟨hrel, hd, segs, hc, hxx⟩⟩
            · rw [if_pos hrel, dif_neg hd] at hx
              simp at hx
          · rw [if_neg hrel] at hx
            simp at hx
        · rcases (ih pre x).mp hx with ⟨fd, hfd, hne, h⟩
          exact ⟨fd, List.mem_cons_of_mem _ hfd, hne, h⟩
      · rintro ⟨fd, hfd, hne, hor⟩
        simp only [List.mem_cons, List.mem_append]
        rcases List.mem_cons.mp hfd with rfl | hfd'
        · rcases hor with rfl | ⟨hrel, hd, segs, hc, hxx⟩
          · exact Or.inl rfl
          · refine Or.inr (Or.inl ?_)
            rw [if_pos hrel, dif_pos hd]
            exact (IH hd _ _ _).mpr ⟨segs, hc, hxx⟩
        · exact Or.inr (Or.inr ((ih pre x).mpr ⟨fd, hfd', hne, hor⟩))

/-- A lookup path is emitted by `extract_field_metadata` exactly when it
joins an acceptable chain (`chain_ok`).  Proved by induction on the
remaining depth budget. -/
theorem extract_lookups_mem_aux (s : Schema) (maxD : Nat) :
    ∀ (fuel : Nat) (curD : Nat), maxD - curD ≤ fuel →
    ∀ (m pre : String) (visited : List String) (x : String),
      x ∈ (extract_field_metadata s m pre maxD curD visited).2 ↔
      ∃ segs, chain_ok s m maxD curD visited segs = true ∧
        x = join_path pre segs := by
  intro fuel
  induction fuel with
  | zero =>
    intro curD hfuel m pre visited x
    have hd : ¬ curD < maxD := by omega
    rw [extract_field_metadata]
    by_cases hv : m ∈ visited
    · rw [if_pos hv]
      constructor
      · intro hx; simp at hx
      · rintro ⟨segs, hc, _⟩
        exact absurd hv (by simpa using chain_ok_not_visited hc)
    · rw [if_neg hv]
      rw [extract_loop_mem_iff s maxD curD (m :: visited)
            (fun h => absurd h hd) (get_fields s m) pre x]
      constructor
      · rintro ⟨fd, hfd, hne, rfl | ⟨_, hdd, _⟩⟩
        · refine ⟨[fd.name], ?_, rfl⟩
          rw [chain_ok]
          simp only [Bool.and_eq_true, Bool.not_eq_true']
          refine ⟨by simpa using hv, ?_⟩
          rw [List.any_eq_true]
          exact ⟨fd, hfd, by simp [hne]⟩
        · exact absurd hdd hd
      · rintro ⟨segs, hc, rfl⟩
        match segs with
        | [] => simp [chain_ok] at hc
        | [f] =>
          rw [chain_ok] at hc
          simp only [Bool.and_eq_true, Bool.not_eq_true', List.any_eq_true] at hc
          obtain ⟨-, fd, hfd, hfd2⟩ := hc
          simp only [Bool.and_eq_true, Bool.not_eq_true', beq_iff_eq] at hfd2
          exact ⟨fd, hfd, hfd2.1, Or.inl (by rw [hfd2.2]; rfl)⟩
        | f :: f2 :: rest =>
          rw [chain_ok] at hc
          simp only [Bool.and_eq_true, decide_eq_true_eq] at hc
          exact absurd hc.1.2 hd
  | succ fuel ihf =>
    intro curD hfuel m pre visited x
    rw [extract_field_metadata]
    by_cases hv : m ∈ visited
    · rw [if_pos hv]
      constructor
      · intro hx; simp at hx
      · rintro ⟨segs, hc, _⟩
        exact absurd hv (by simpa using chain_ok_not_visited hc)
    · rw [if_neg hv]
      have IH : curD < maxD → ∀ (m' pre' : String) (x' : String),
          x' ∈ (extract_field_metadata s m' pre' maxD (curD + 1) (m :: visited)).2 ↔
          ∃ segs, chain_ok s m' maxD (curD + 1) (m :: visited) segs = true ∧
            x' = join_path pre' segs := by
        intro h m' pre' x'
        exact ihf (curD + 1) (by omega) m' pre' (m :: visited) x'
      rw [extract_loop_mem_iff s maxD curD (m :: visited) IH (get_fields s m) pre x]
      constructor
      · rintro ⟨fd, hfd, hne, rfl | ⟨hrel, hdd, segs, hc, hxx⟩⟩
        · refine ⟨[fd.name], ?_, rfl⟩
          rw [chain_ok]
          simp only [Bool.and_eq_true, Bool.not_eq_true']
          refine ⟨by simpa using hv, ?_⟩
          rw [List.any_eq_true]
          exact ⟨fd, hfd, by simp [hne]⟩
        · match segs, hc, hxx with
          | f2 :: rest2, hc, hxx =>
            refine ⟨fd.name :: f2 :: rest2, ?_, by rw [join_path_cons]; exact hxx⟩
            rw [chain_ok]
            simp only [Bool.and_eq_true, Bool.not_eq_true', decide_eq_true_eq,
              List.any_eq_true]
            exact ⟨⟨by simpa using hv, hdd⟩,
              fd, hfd, by simp [hne, hrel, hc]⟩
          | [], hc, hxx => simp [chain_ok] at hc
      · rintro ⟨segs, hc, rfl⟩
        match segs with
        | [] => simp [chain_ok] at hc
        | [f] =>
          rw [chain_ok] at hc
          simp only [Bool.and_eq_true, Bool.not_eq_true', List.any_eq_true] at hc
          obtain ⟨-, fd, hfd, hfd2⟩ := hc
          simp only [Bool.and_eq_true, beq_iff_eq] at hfd2
          exact ⟨fd, hfd, hfd2.1, Or.inl (by rw [hfd2.2]; rfl)⟩
        | f :: f2 :: rest =>
          rw [chain_ok] at hc
          simp only [Bool.and_eq_true, Bool.not_eq_true', decide_eq_true_eq,
            List.any_eq_true] at hc
          obtain ⟨⟨-, hdd⟩, fd, hfd, hfd2⟩ := hc
          simp only [Bool.and_eq_true, beq_iff_eq] at hfd2
          obtain ⟨⟨⟨hne, hname⟩, hrel⟩, hchild⟩ := hfd2
          subst hname
          exact ⟨fd, hfd, hne, Or.inr ⟨hrel, hdd, f2 :: rest, hchild,
            join_path_cons _ _ _⟩⟩

/-- `validate_field_path_parts` only ever APPENDS to the error list it is
given; the appended records and the boolean result do not depend on the
incoming list. -/
lemma vfp_append (s : Schema) :
    ∀ (parts : List (List Char)) (model : String) (errors : List VError),
      validate_field_path_parts s model parts errors =
        (errors ++ (validate_field_path_parts s model parts []).1,
         (validate_field_path_parts s model parts []).2) := by
  intro parts
  induction parts with
  | nil => intro model errors; simp [validate_field_path_parts]
  | cons first rest ih =>
    intro model errors
    match rest with
    | [] =>
      rw [validate_field_path_parts, validate_field_path_parts]
      by_cases hmem : String.mk first ∈ (get_fields s model).map (·.name)
      · rw [if_pos hmem, if_pos hmem]; simp
      · rw [if_neg hmem, if_neg hmem]
        by_cases hsug : ((get_fields s model).any
            (fun f => starts_with (f.name ++ "__").data (replace_underscores first))) = true
        · rw [if_pos hsug, if_pos hsug]; simp
        · rw [if_neg hsug, if_neg hsug]; simp
    | f2 :: rest2 =>
      simp only [validate_field_path_parts]
      match hg : get_field s model (String.mk first) with
      | none => simp
      | some fd =>
        dsimp only
        by_cases hrel : (is_instance fd.cls .ForeignKey
            || is_instance fd.cls .ManyToManyField) = true
        · rw [if_pos hrel, if_pos hrel]
          exact ih _ _
        · rw [if_neg hrel, if_neg hrel]; simp

/-- `QueryFilter._validate_field` appends to the error list it is given. -/
lemma qvf_append (s : Schema) (M f : String) (errs : List VError) :
    queryfilter_validate_field s M f errs =
      (errs ++ (queryfilter_validate_field s M f []).1,
       (queryfilter_validate_field s M f []).2) := by
  rw [queryfilter_validate_field, queryfilter_validate_field]
  by_cases hsyn : (!is_valid_lookup f) = true
  · rw [if_pos hsyn, if_pos hsyn]; simp
  · rw [if_neg hsyn, if_neg hsyn]
    exact vfp_append s _ _ _

/-- First projection of `qvf_append`. -/
lemma qvf_fst_append (s : Schema) (M f : String) (errs : List VError) :
    (queryfilter_validate_field s M f errs).1 =
      errs ++ (queryfilter_validate_field s M f []).1 := by
  rw [qvf_append]

/-- The select-field pass only appends: running it from any starting error
list yields that list followed by its own errors. -/
lemma select_fold_append (s : Schema) (M : String) :
    ∀ (sel : List String) (errs : List VError),
      sel.foldl (fun errs f => (queryfilter_validate_field s M f errs).1) errs =
        errs ++ select_pass_errors s M sel := by
  intro sel
  induction sel with
  | nil => intro errs; simp [select_pass_errors]
  | cons f rest ih =>
    intro errs
    have hsel : select_pass_errors s M (f :: rest) =
        (queryfilter_validate_field s M f []).1 ++ select_pass_errors s M rest := by
      show List.foldl (fun errs f => (queryfilter_validate_field s M f errs).1)
          ((queryfilter_validate_field s M f []).1) rest = _
      rw [ih]
    calc List.foldl (fun errs f => (queryfilter_validate_field s M f errs).1)
          errs (f :: rest)
        = List.foldl (fun errs f => (queryfilter_validate_field s M f errs).1)
            ((queryfilter_validate_field s M f errs).1) rest := rfl
      _ = (queryfilter_validate_field s M f errs).1 ++ select_pass_errors s M rest :=
            ih _
      _ = (errs ++ (queryfilter_validate_field s M f []).1)
            ++ select_pass_errors s M rest := by rw [qvf_fst_append]
      _ = errs ++ ((queryfilter_validate_field s M f []).1
            ++ select_pass_errors s M rest) := by rw [List.append_assoc]
      _ = errs ++ select_pass_errors s M (f :: rest) := by rw [hsel]

/-- One filter-pass step appends (or fails independently of the
accumulator). -/
lemma filter_step_shift (s : Schema) (M : String) (errs : List VError)
    (c : Condition) :
    filter_pass_step s M errs c =
      match filter_pass_step s M [] c with
      | .error e => .error e
      | .ok d => .ok (errs ++ d) := by
  simp only [filter_pass_step]
  rw [qvf_append]
  by_cases hv : (queryfilter_validate_field s M c.field []).2 = true
  · simp only [hv, if_true]
    rcases hop : check_attribute_operation s M c.field c.op with e | b
    · simp [hop]
    · cases b <;> simp [hop]
  · simp only [Bool.not_eq_true] at hv
    simp [hv]

/-- The filter pass appends to any starting error list (and an uncaught
exception inside it does not depend on the accumulator). -/
lemma filter_fold_append (s : Schema) (M : String) :
    ∀ (conds : List Condition) (errs : List VError),
      conds.foldlM (filter_pass_step s M) errs =
        match conds.foldlM (filter_pass_step s M) [] with
        | .error e => .error e
        | .ok d => .ok (errs ++ d) := by
  intro conds
  induction conds with
  | nil =>
    intro errs
    show Except.ok errs = Except.ok (errs ++ [])
    simp
  | cons c rest ih =>
    intro errs
    rw [List.foldlM_cons, List.foldlM_cons]
    rw [filter_step_shift]
    rcases hc : filter_pass_step s M [] c with e | d
    · rfl
    · show rest.foldlM (filter_pass_step s M) (errs ++ d) =
        match rest.foldlM (filter_pass_step s M) d with
        | Except.error e => Except.error e
        | Except.ok d2 => Except.ok (errs ++ d2)
      rw [ih (errs ++ d), ih d]
      rcases hrest : rest.foldlM (filter_pass_step s M) [] with e | d2
      · rfl
      · show Except.ok (errs ++ d ++ d2) = Except.ok (errs ++ (d ++ d2))
        rw [List.append_assoc]

/-- Every operation listed by the metadata policy table is accepted by the
validator's table, field class by field class. -/
lemma get_allowed_all_accepted :
    ∀ c : DjangoFieldClass,
      (get_allowed_operations c).all (fun o => field_ops_check c o) = true := by
  intro c; cases c <;> decide

/-- Claim C1 (code bug): the claim — and the `Filter` docstring's
"Complex combination" example in model_validation.py — say the OR group's
disjunction is conjoined (ANDed) with the AND group's result.  The code
instead executes `q |= or_q`: on
`Filter(and_operation=[type is backup], or_operation=[size gt 1000])` the
compiled predicate is the top-level DISJUNCTION of the two, so a row that
fails the AND member but satisfies the OR member still matches. -/
theorem c1_or_group_ored_into_and_result :
    build_q f_and_or =
      QObj.qor (QObj.leaf "type" (.str "backup"))
               (QObj.leaf "size__gt" (.str "1000")) ∧
    evalQ env_or_only (build_q f_and_or) = true ∧
    evalQ env_or_only (condition_to_q c_type) = false := by decide

/-- Claim C2 (counterexample): the claim says a one-to-one first segment
is rejected with a NotARelation error; in fact `validate_field_path`
accepts `profile__name` where `A.profile` is a `OneToOneField` —
no error is appended and the result is `True`, because `OneToOneField`
subclasses `ForeignKey` and therefore passes the
`isinstance(.., (ForeignKey, ManyToManyField))` check. -/
theorem c2_one_to_one_rejected_counterexample :
    validate_field_path s_one_to_one "A" "profile__name" [] = ([], true) := by
  decide

/-- Claim C2 (amended): a first segment naming a one-to-one field IS
accepted as a traversable relation — resolution recurses into the related
model with the remaining segments, emitting nothing. -/
theorem c2_one_to_one_traversal_amended (s : Schema) (model : String)
    (first f2 : List Char) (rest : List (List Char)) (errors : List VError)
    (fd : FieldDef) (h : get_field s model (String.mk first) = some fd)
    (hc : fd.cls = DjangoFieldClass.OneToOneField) :
    validate_field_path_parts s model (first :: f2 :: rest) errors =
      validate_field_path_parts s (fd.related_model.getD "") (f2 :: rest) errors := by
  simp only [validate_field_path_parts, h]
  rw [hc]
  simp [is_instance]

/-- Witness for `c2_one_to_one_traversal_amended` at the concrete
one-to-one schema. -/
theorem c2_one_to_one_traversal_witness :
    validate_field_path_parts s_one_to_one "A"
        ("profile".data :: ["name".data]) [] =
      validate_field_path_parts s_one_to_one
        (profile_fd.related_model.getD "") ["name".data] [] :=
  c2_one_to_one_traversal_amended s_one_to_one "A" "profile".data "name".data
    [] [] profile_fd (by decide) rfl

/-- Claim C3 (code bug): for `select_fields ["backup_job_name"]` on
`VeeamBackup` (where `backup_job__name` exists) the claim — and the
example error in the `validate_fields` docstring of pydantic_filters.py —
promise a FieldNotFound error suggesting `backup_job__name`.  The code's
heuristic doubles EVERY underscore, producing `backup__job__name`, of
which no field name followed by `__` is a prefix (`backup_job__` is not a
prefix of `backup__job__name`), so the plain suggestion-free error is
emitted instead. -/
theorem c3_no_suggestion_at_backup_job_name :
    validate_field_path s_veeam "VeeamBackup" "backup_job_name" [] =
      ([c3_plain_error], false) ∧
    String.mk (replace_underscores "backup_job_name".data) =
      "backup__job__name" := by decide

/-- Claim C4 (counterexample): on an empty result set the claim demands
`totalPages = ceil(count/pageSize) = 0`; Django's `Paginator.num_pages`
(with its default `allow_empty_first_page=True`, as views.py uses it)
yields 1 — page 1 is still the only valid page and returns no rows. -/
theorem c4_empty_total_pages_counterexample :
    query_paginate ([] : List Nat) 1 100 =
      .ok { count := 0, page := 1, page_size := 100, total_pages := 1,
            next := none, previous := none, results := [] } ∧
    (0 + 100 - 1) / 100 ≠ 1 := by decide

set_option maxRecDepth 10000 in
/-- Claim C4 (amended): `totalPages = max 1 (ceil(count/pageSize))` —
the ceiling formula for nonempty results and 1 for an empty result set;
the 250-row/page-size-100 boundary scenario behaves exactly as claimed:
3 pages, page 1 has `previous=null, next=2`, page 3 has
`next=null, previous=2`, and page 4 raises the page-out-of-range
`EmptyPage` error. -/
theorem c4_pagination_amended :
    (∀ count per_page : Nat, 0 < per_page →
        paginator_num_pages count per_page =
          max 1 ((count + per_page - 1) / per_page)) ∧
    (query_paginate rows250 1 100).toOption.map
        (fun r => (r.total_pages, r.previous, r.next)) = some (3, none, some 2) ∧
    (query_paginate rows250 3 100).toOption.map
        (fun r => (r.total_pages, r.previous, r.next)) = some (3, some 2, none) ∧
    query_paginate rows250 4 100 = .error "That page contains no results" := by
  refine ⟨?_, by decide, by decide, by decide⟩
  intro c p hp
  unfold paginator_num_pages
  rcases Nat.eq_zero_or_pos c with hc | hc
  · subst hc
    have h1 : (0 + p - 1) / p = 0 := Nat.div_eq_of_lt (by omega)
    have hm : max 1 (0 : Nat) = 1 := by simp
    rw [hm, h1]
    have h2 : 1 + p - 1 = p := by omega
    rw [h2, Nat.div_self hp]
    simp
  · rw [Nat.max_eq_right hc,
        Nat.max_eq_right ((Nat.one_le_div_iff hp).mpr (by omega))]

/-- Witness for `c4_pagination_amended` at `count = 250, pageSize = 100`. -/
theorem c4_pagination_amended_witness :
    paginator_num_pages 250 100 = max 1 ((250 + 100 - 1) / 100) :=
  c4_pagination_amended.1 250 100 (by decide)

/-- Claim C5 (counterexample): the policy table and the validator are NOT
equal — `iexact` on a `CharField` is accepted by
`check_attribute_operation` but absent from the
`get_allowed_operations` metadata list. -/
theorem c5_policy_validator_counterexample :
    check_attribute_operation s_chardoc "Doc" "name" "iexact" = .ok true ∧
    "iexact" ∉ get_allowed_operations DjangoFieldClass.CharField := by decide

/-- Claim C5 (amended): the inclusion that does hold — every operation
the metadata policy table lists for a field's class is accepted by the
condition validator for that field (the converse fails, per the
counterexample). -/
theorem c5_policy_subset_amended (s : Schema) (m fname : String)
    (fd : FieldDef) (opn : String) (h : get_field s m fname = some fd)
    (hop : opn ∈ get_allowed_operations fd.cls) :
    check_attribute_operation s m fname opn = .ok true := by
  rw [check_attribute_operation, h]
  have hall := get_allowed_all_accepted fd.cls
  rw [List.all_eq_true] at hall
  dsimp only
  rw [hall opn hop]

/-- Witness for `c5_policy_subset_amended`: `is` on the `CharField`
`Doc.name`. -/
theorem c5_policy_subset_witness :
    check_attribute_operation s_chardoc "Doc" "name" "is" = .ok true :=
  c5_policy_subset_amended s_chardoc "Doc" "name" chardoc_name_fd "is"
    (by decide) (by decide)

/-- Claim C6 (counterexample): a request carrying BOTH a nonexistent
select field and a filter condition with an unknown operation is answered
with ONLY the single operation-type error — `Condition.validate_op`
raises during pydantic parsing, before the select pass ever runs, so
validation does stop at the first defect. -/
theorem c6_short_circuit_counterexample :
    (match query_filter_build reg_core s_backup req_two_defects with
     | .error (.validation e) => some e
     | _ => none) = some [op_type_error] := by decide

/-- Claim C6 (amended): WITHIN `validate_fields` the claim holds — once
the model resolves and the filter pass raises no uncaught exception, the
select pass and the filter pass both run and the response carries exactly
the concatenation of the two passes' error lists (select errors first),
raised together. -/
theorem c6_both_passes_aggregate_amended (reg : Registry) (s : Schema)
    (app_label : Option String) (model_name : String)
    (select_fields : List String) (f : QFilter) (M : String)
    (e2 : List VError)
    (hM : apps_get_model reg (app_label.getD DEFAULT_APP_LABEL) model_name
            = some M)
    (hf : filter_pass_run s M f = .ok e2) :
    validate_fields reg s app_label model_name select_fields (some f) =
      (if (select_pass_errors s M select_fields ++ e2).isEmpty then .ok ()
       else .error (.validation (select_pass_errors s M select_fields ++ e2))) := by
  rw [validate_fields, hM]
  dsimp only
  rw [filter_fold_append]
  rw [show (flatten_filter_conditions f).foldlM (filter_pass_step s M) [] =
      Except.ok e2 from hf]
  rfl

/-- Witness for `c6_both_passes_aggregate_amended`: one bad select field
plus one well-formed filter condition. -/
theorem c6_both_passes_aggregate_witness :
    validate_fields reg_core s_backup none "Backup" ["missing_field"]
        (some f_c6w) =
      (if (select_pass_errors s_backup "Backup" ["missing_field"] ++ []).isEmpty
       then .ok ()
       else .error (.validation
         (select_pass_errors s_backup "Backup" ["missing_field"] ++ []))) :=
  c6_both_passes_aggregate_amended reg_core s_backup none "Backup"
    ["missing_field"] f_c6w "Backup" [] (by decide) (by decide)

/-- Claim C7 (counterexample): with a self-referential foreign key
`A.parent : A`, the path `parent__id` is a valid lookup path of relation
depth 1 ≤ maxDepth = 2 (`validate_field_path` accepts it), yet it is
absent from the metadata walk's lookups, because the cycle check prunes
the revisit of `A` on the same branch. -/
theorem c7_depth_inclusion_counterexample :
    validate_field_path s_self_fk "A" "parent__id" [] = ([], true) ∧
    "parent__id" ∉ (extract_field_metadata s_self_fk "A" "" 2 0 []).2 := by
  constructor
  · decide
  · have h : (extract_field_metadata s_self_fk "A" "" 2 0 []).2 = ["id", "parent"] := by
      simp [extract_field_metadata, extract_fields_loop, get_fields, s_self_fk,
            extend_path, is_relation_field, is_instance]
    rw [h]; decide

/-- Claim C7 (amended): a path is in the emitted lookups IFF it joins a
chain that resolves through non-auto-created fields, uses relation fields
for every hop, stays within the depth budget (`chain_ok` spends one unit
of `current_depth < max_depth` per hop, so a path of depth d needs
d ≤ maxDepth), and never revisits a model along the branch (the root
included).  So inclusion additionally requires the no-revisit condition
the original claim omitted, and omission holds for d > maxDepth because
no such chain exists. -/
theorem c7_lookup_characterization_amended (s : Schema) (m : String)
    (maxD : Nat) (x : String) :
    x ∈ (extract_field_metadata s m "" maxD 0 []).2 ↔
    ∃ segs, chain_ok s m maxD 0 [] segs = true ∧ x = join_path "" segs :=
  extract_lookups_mem_aux s maxD maxD 0 (by omega) m "" [] x

/-- Claim C8: an entirely empty Filter compiles to `Q()` — the identity
predicate — and filtering any row set with it returns every row. -/
theorem c8_empty_filter_identity :
    build_q empty_filter = QObj.empty ∧
    ∀ (α : Type) (env : α → String → CondValue → Bool) (rows : List α),
      rows.filter (fun r => evalQ (env r) (build_q empty_filter)) = rows := by
  refine ⟨rfl, ?_⟩
  intro α env rows
  simp [build_q, build_q_and_group, build_q_or_group, build_q_not_group, evalQ]

/-- Claim C9: the metadata traversal never revisits a model already on the
current branch (first conjunct: a visited model contributes nothing), and
on the cyclic diamond schema (`R.a`, `R.b` both to `M`; `M.back` to `R`)
the walk terminates with `M`'s fields listed independently under both
sibling branches and the cycle `a__back__...` pruned. -/
theorem c9_termination_and_sibling_branches :
    (∀ (s : Schema) (m pre : String) (maxD curD : Nat)
        (visited : List String), m ∈ visited →
        extract_field_metadata s m pre maxD curD visited = ([], [])) ∧
    (extract_field_metadata s_diamond "R" "" 2 0 []).2 =
      ["a", "a__x", "a__back", "b", "b__x", "b__back"] := by
  constructor
  · intro s m pre maxD curD visited h
    rw [extract_field_metadata, if_pos h]
  · simp [extract_field_metadata, extract_fields_loop, get_fields, s_diamond,
          extend_path, is_relation_field, is_instance]

/-- Witness for `c9_termination_and_sibling_branches` at a concrete
visited set. -/
theorem c9_termination_witness :
    extract_field_metadata s_self_fk "A" "" 2 0 ["A"] = ([], []) :=
  c9_termination_and_sibling_branches.1 s_self_fk "A" "" 2 0 ["A"] (by decide)

/-- Claim C10: `Secret` exists only in app `other`; the case-insensitive
`model_exists` check (which scans ALL apps) passes, but `validate_fields`
then resolves the model inside the default app `core` via
`apps.get_model`, whose `LookupError` no handler catches — `Query.post`
ends in an unhandled exception instead of a structured
model-not-found validation error. -/
theorem c10_cross_app_unhandled_lookup :
    model_exists reg_two "Secret" = some "Secret" ∧
    (match query_filter_build reg_two s_two req_secret with
     | .error (.uncaught m) => some m
     | _ => none) = some "LookupError" ∧
    views_query_post reg_two s_two db_empty env_all req_secret =
      .unhandled "LookupError" := by
  refine ⟨by decide, by decide, by decide⟩
